import Mathlib

/-!
Shallow embedding of the transactional order-and-inventory engine of the
Radhe-Radhe-and-Sons backend: product variants with stock, the cart pricing
engine (pre-save totals recomputation, addItem / updateItemQuantity /
removeItem / clearCart / applyCoupon / removeCoupon), the coupon evaluator
(canUserUseCoupon, calculateDiscount, useCoupon), the order status state
machine (updateStatus, assignDeliveryPartner) and refund computation
(calculateRefundAmount).  Money amounts are embedded as rationals, ids as
naturals, timestamps as integers; methods that `throw` are embedded with
`Except`, and methods that mutate `this` before a possible throw return the
final in-memory document alongside the result.
-/

namespace RadheRadhe

/-! ### Product variants and availability (Product.js) -/

/-- A variant price block: `{ mrp, sellingPrice, discount }`. -/
structure Price where
  mrp : Rat
  sellingPrice : Rat
  discount : Rat
deriving Repr, DecidableEq

/-- A product variant: subdocument id, price and stock (`min: 0`). -/
structure Variant where
  id : Nat
  price : Price
  stock : Nat
deriving Repr, DecidableEq

/-- A product: id and its list of variants. -/
structure Product where
  id : Nat
  variants : List Variant
deriving Repr, DecidableEq

/-- Source: `this.variants.id(variantId)`: look a subdocument up by id. -/
def Product.findVariant (p : Product) (variantId : Nat) : Option Variant :=
  p.variants.find? (fun v => v.id == variantId)

/-- Source: `productSchema.methods.isAvailable`: the variant exists and
`variant.stock >= quantity`. -/
def Product.isAvailable (p : Product) (variantId : Nat) (quantity : Nat) : Bool :=
  match p.findVariant variantId with
  | some v => quantity ≤ v.stock
  | none => false

/-- Source: `Product.findById` over a store of products. -/
def findProduct (products : List Product) (productId : Nat) : Option Product :=
  products.find? (fun p => p.id == productId)

/-! ### Cart data model (Cart.js) -/

/-- One cart line item `{ product, variant, quantity, price }`. -/
structure CartItem where
  product : Nat
  variant : Nat
  quantity : Nat
  price : Price
deriving Repr, DecidableEq

/-- The cart document: line items, optional coupon and the stored derived
totals recomputed by the pre-save hook. -/
structure Cart where
  items : List CartItem
  couponCode : Option String
  couponDiscount : Rat
  totalItems : Nat
  subtotal : Rat
  totalDiscount : Rat
  deliveryCharge : Rat
  totalAmount : Rat
  lastUpdated : Int
deriving Repr, DecidableEq

/-- A freshly created cart: every field at its schema default. -/
def initialCart : Cart :=
  { items := []
    couponCode := none
    couponDiscount := 0
    totalItems := 0
    subtotal := 0
    totalDiscount := 0
    deliveryCharge := 0
    totalAmount := 0
    lastUpdated := 0 }

/-- Delivery configuration read from the environment in the pre-save hook
(`MIN_ORDER_AMOUNT || 99`, `DELIVERY_CHARGE || 29`, `FREE_DELIVERY_ABOVE || 299`). -/
structure DeliveryConfig where
  minOrderAmount : Rat
  deliveryCharge : Rat
  freeDeliveryAbove : Rat
deriving Repr, DecidableEq

/-- The default environment: 99 / 29 / 299. -/
def defaultConfig : DeliveryConfig :=
  { minOrderAmount := 99, deliveryCharge := 29, freeDeliveryAbove := 299 }

/-- Source: `Σ quantity` over the items. -/
def itemsTotalQty (items : List CartItem) : Nat :=
  items.foldl (fun total item => total + item.quantity) 0

/-- Source: `Σ sellingPrice × quantity` over the items. -/
def itemsSubtotal (items : List CartItem) : Rat :=
  items.foldl (fun total item => total + item.price.sellingPrice * item.quantity) 0

/-- Source: `Σ (mrp − sellingPrice) × quantity` over the items. -/
def itemsDiscount (items : List CartItem) : Rat :=
  items.foldl
    (fun total item => total + (item.price.mrp - item.price.sellingPrice) * item.quantity) 0

/-- The three-tier delivery-charge rule of the pre-save hook. -/
def computeDeliveryCharge (cfg : DeliveryConfig) (subtotal : Rat) : Rat :=
  if cfg.freeDeliveryAbove ≤ subtotal then 0
  else if cfg.minOrderAmount ≤ subtotal then cfg.deliveryCharge
  else 0

/-- Source: `cartSchema.pre('save')`: recompute `totalItems`, `subtotal`,
`totalDiscount`, `deliveryCharge`, `totalAmount` and `lastUpdated` from the
line items and the stored coupon discount. -/
def preSave (cfg : DeliveryConfig) (now : Int) (c : Cart) : Cart :=
  let subtotal := itemsSubtotal c.items
  { c with
    totalItems := itemsTotalQty c.items
    subtotal := subtotal
    totalDiscount := itemsDiscount c.items + c.couponDiscount
    deliveryCharge := computeDeliveryCharge cfg subtotal
    totalAmount := subtotal + computeDeliveryCharge cfg subtotal - c.couponDiscount
    lastUpdated := now }

/-! ### Cart mutation methods -/

/-- The errors thrown by the cart methods. -/
inductive CartError where
  | productNotFound
  | variantNotFound
  | insufficientStock
  | insufficientStockForRequestedQuantity
  | itemNotFoundInCart
  | invalidOrExpiredCoupon
  | minimumOrderAmountRequired
deriving Repr, DecidableEq

/-- JS `Array.prototype.findIndex`: index of the first element satisfying
the predicate. -/
def findIndexList {α : Type} (p : α → Bool) : List α → Option Nat
  | [] => none
  | x :: xs => if p x then some 0 else (findIndexList p xs).map (· + 1)

/-- The matcher used by the cart methods:
`item.product.toString() === productId && item.variant.toString() === variantId`. -/
def sameLine (productId variantId : Nat) (item : CartItem) : Bool :=
  item.product == productId && item.variant == variantId

/-- Source: `cartSchema.methods.addItem`: look up the product and variant, check
availability of the delta, then either merge into an existing line (re-checking
availability of the merged quantity) or append a fresh price snapshot, and
save (which runs the pre-save recomputation). -/
def addItem (products : List Product) (cfg : DeliveryConfig) (now : Int)
    (c : Cart) (productId variantId : Nat) (quantity : Nat) : Except CartError Cart :=
  match findProduct products productId with
  | none => .error .productNotFound
  | some product =>
    match product.findVariant variantId with
    | none => .error .variantNotFound
    | some _ =>
      if ¬ product.isAvailable variantId quantity then .error .insufficientStock
      else
        match findIndexList (sameLine productId variantId) c.items with
        | some existingItemIndex =>
          let item := c.items.getD existingItemIndex
            { product := productId, variant := variantId, quantity := 0
              price := { mrp := 0, sellingPrice := 0, discount := 0 } }
          let newQuantity := item.quantity + quantity
          if ¬ product.isAvailable variantId newQuantity then
            .error .insufficientStockForRequestedQuantity
          else
            .ok (preSave cfg now
              { c with items :=
                  c.items.set existingItemIndex { item with quantity := newQuantity } })
        | none =>
          let priceSnapshot : Price :=
            match product.findVariant variantId with
            | some v =>
              { mrp := v.price.mrp, sellingPrice := v.price.sellingPrice
                discount := v.price.discount }
            | none => { mrp := 0, sellingPrice := 0, discount := 0 }
          .ok (preSave cfg now
            { c with items := c.items ++
                [{ product := productId, variant := variantId, quantity := quantity
                   price := priceSnapshot }] })

/-- Source: `cartSchema.methods.updateItemQuantity`: re-validate availability for the
new absolute quantity, then remove the line when `quantity ≤ 0`, else set it,
and save. -/
def updateItemQuantity (products : List Product) (cfg : DeliveryConfig) (now : Int)
    (c : Cart) (productId variantId : Nat) (quantity : Nat) : Except CartError Cart :=
  match findProduct products productId with
  | none => .error .productNotFound
  | some product =>
    if ¬ product.isAvailable variantId quantity then .error .insufficientStock
    else
      match findIndexList (sameLine productId variantId) c.items with
      | none => .error .itemNotFoundInCart
      | some itemIndex =>
        if quantity ≤ 0 then
          .ok (preSave cfg now { c with items := c.items.eraseIdx itemIndex })
        else
          let item := c.items.getD itemIndex
            { product := productId, variant := variantId, quantity := 0
              price := { mrp := 0, sellingPrice := 0, discount := 0 } }
          .ok (preSave cfg now
            { c with items := c.items.set itemIndex { item with quantity := quantity } })

/-- Source: `cartSchema.methods.removeItem`: filter the line out and save. -/
def removeItem (cfg : DeliveryConfig) (now : Int)
    (c : Cart) (productId variantId : Nat) : Except CartError Cart :=
  .ok (preSave cfg now
    { c with items := c.items.filter (fun item => ¬ sameLine productId variantId item) })

/-- Source: `cartSchema.methods.clearCart`: drop the items and the coupon and save. -/
def clearCart (cfg : DeliveryConfig) (now : Int) (c : Cart) : Except CartError Cart :=
  .ok (preSave cfg now { c with items := [], couponCode := none, couponDiscount := 0 })

/-! ### Order status state machine and refunds (Order.js) -/

/-- Source: `paymentDetails.method` enum. -/
inductive PaymentMethod where
  | cod
  | online
  | wallet
  | card
  | upi
deriving Repr, DecidableEq

/-- The order status enum. -/
inductive OrderStatus where
  | pending
  | confirmed
  | packed
  | out_for_delivery
  | delivered
  | cancelled
  | returned
deriving Repr, DecidableEq

/-- The `validTransitions` table of `orderSchema.methods.updateStatus`. -/
def validTransitions : OrderStatus → List OrderStatus
  | .pending => [.confirmed, .cancelled]
  | .confirmed => [.packed, .cancelled]
  | .packed => [.out_for_delivery, .cancelled]
  | .out_for_delivery => [.delivered, .cancelled]
  | .delivered => [.returned]
  | .cancelled => []
  | .returned => []

/-- One tracking entry `{ status, timestamp, note, updatedBy }`. -/
structure TrackingEntry where
  status : OrderStatus
  timestamp : Int
  note : String
  updatedBy : Option Nat
deriving Repr, DecidableEq

/-- The `orderSummary` block mirroring cart totals at creation time. -/
structure OrderSummary where
  itemsCount : Nat
  subtotal : Rat
  discount : Rat
  couponDiscount : Rat
  deliveryCharge : Rat
  totalAmount : Rat
deriving Repr, DecidableEq

/-- The payment sub-record (only the method matters to the claims). -/
structure PaymentDetails where
  method : PaymentMethod
deriving Repr, DecidableEq

/-- The order document fields touched by the lifecycle methods. -/
structure Order where
  user : Nat
  status : OrderStatus
  tracking : List TrackingEntry
  orderSummary : OrderSummary
  paymentDetails : PaymentDetails
  deliveryPartner : Option Nat
  actualDeliveryTime : Option Int
deriving Repr, DecidableEq

/-- Source: `orderSchema.methods.getStatusMessage`: the default status messages. -/
def getStatusMessage (status : OrderStatus) : String :=
  match status with
  | .pending => "Order is being processed"
  | .confirmed => "Order confirmed and being prepared"
  | .packed => "Order packed and ready for delivery"
  | .out_for_delivery => "Order is out for delivery"
  | .delivered => "Order delivered successfully"
  | .cancelled => "Order cancelled"
  | .returned => "Order returned"

/-- The error thrown on a disallowed transition, carrying the current and the
attempted status. -/
inductive OrderError where
  | invalidTransition (fromStatus toStatus : OrderStatus)
deriving Repr, DecidableEq

/-- Source: `orderSchema.methods.updateStatus`: a same-state request resolves with the
order untouched; an allowed transition sets the status, appends one tracking
entry (with the caller-supplied note, or the default message when the note is
empty) and stamps `actualDeliveryTime` on `delivered`; any other request
throws before mutating.  The first component is the in-memory document after
the call (mutations made before a throw persist on it). -/
def updateStatus (o : Order) (newStatus : OrderStatus) (note : String)
    (updatedBy : Option Nat) (now : Int) : Order × Except OrderError Order :=
  if o.status == newStatus then (o, .ok o)
  else if (validTransitions o.status).contains newStatus then
    let entry : TrackingEntry :=
      { status := newStatus
        timestamp := now
        note := if note == "" then getStatusMessage newStatus else note
        updatedBy := updatedBy }
    let o2 : Order :=
      { o with
        status := newStatus
        tracking := o.tracking ++ [entry]
        actualDeliveryTime :=
          if newStatus == .delivered then some now else o.actualDeliveryTime }
    (o2, .ok o2)
  else (o, .error (.invalidTransition o.status newStatus))

/-- Source: `orderSchema.methods.calculateRefundAmount`. -/
def calculateRefundAmount (o : Order) : Rat :=
  if o.paymentDetails.method == .cod then 0
  else if [OrderStatus.pending, OrderStatus.confirmed].contains o.status then
    o.orderSummary.totalAmount
  else if o.status == .packed then
    o.orderSummary.totalAmount - o.orderSummary.deliveryCharge
  else 0

/-- Source: `orderSchema.methods.assignDeliveryPartner`: records the partner on the
document, then requests the transition to `out_for_delivery`; the partner
assignment happens before the transition check. -/
def assignDeliveryPartner (o : Order) (partnerId : Nat) (now : Int) :
    Order × Except OrderError Order :=
  let o1 : Order := { o with deliveryPartner := some partnerId }
  updateStatus o1 .out_for_delivery "Assigned to delivery partner" (some partnerId) now

/-! ### Coupons and the coupon evaluator (Coupon.js, CouponUsage.js) -/

/-- The coupon discount type enum. -/
inductive DiscountType where
  | percentage
  | fixed
deriving Repr, DecidableEq

/-- The coupon document fields touched by the evaluator. -/
structure Coupon where
  id : Nat
  code : String
  discountType : DiscountType
  discountValue : Rat
  minOrderAmount : Rat
  maxDiscount : Option Rat
  usageLimit : Option Nat
  usedCount : Nat
  userUsageLimit : Nat
  validFrom : Int
  validUntil : Int
  isActive : Bool
  isFirstOrderOnly : Bool
deriving Repr, DecidableEq

/-- JS truthiness of an optional numeric field such as `coupon.maxDiscount`:
absent and zero are falsy. -/
def ratTruthy (x : Option Rat) : Bool :=
  match x with
  | none => false
  | some m => ¬ m == 0

/-- The `isValidForUsage` virtual: active, inside the validity window and the
global usage cap (when set) not exhausted. -/
def isValidForUsage (c : Coupon) (now : Int) : Bool :=
  c.isActive && c.validFrom ≤ now && now ≤ c.validUntil &&
    (match c.usageLimit with
     | none => true
     | some limit => c.usedCount < limit)

/-- One persisted CouponUsage fact `{ coupon, user, order, discountAmount, usedAt }`. -/
structure CouponUsageFact where
  coupon : Nat
  user : Nat
  order : Option Nat
  discountAmount : Rat
  usedAt : Int
deriving Repr, DecidableEq

/-- The fields passed to `CouponUsage.create`; `required` fields may still be
absent from the passed document. -/
structure CouponUsageDoc where
  coupon : Option Nat
  user : Option Nat
  order : Option Nat
  discountAmount : Option Rat
  usedAt : Int
deriving Repr, DecidableEq

/-- A persistence-layer validation failure. -/
inductive DbError where
  | validationFailed
deriving Repr, DecidableEq

/-- Source: `CouponUsage.create`: schema validation of `couponUsageSchema` — `coupon`,
`user` and `discountAmount` are `required` (`discountAmount` also `min: 0`);
`order` is optional.  A document missing a required field is rejected. -/
def couponUsageCreate (d : CouponUsageDoc) : Except DbError CouponUsageFact :=
  match d.coupon, d.user, d.discountAmount with
  | some couponId, some userId, some amount =>
    if amount < 0 then .error .validationFailed
    else .ok { coupon := couponId, user := userId, order := d.order
               discountAmount := amount, usedAt := d.usedAt }
  | _, _, _ => .error .validationFailed

/-- The result of `canUserUseCoupon`. -/
structure UsageCheck where
  canUse : Bool
  reason : Option String
deriving Repr, DecidableEq

/-- Source: `CouponUsage.countDocuments({ coupon, user })`: the per-user usage count
read from the fact table. -/
def countUserUsage (usages : List CouponUsageFact) (couponId userId : Nat) : Nat :=
  (usages.filter (fun u => u.coupon == couponId && u.user == userId)).length

/-- Source: `Order.countDocuments({ user, status: { $ne: cancelled } })` over the
order store, given as (user, status) pairs. -/
def countNonCancelledOrders (orders : List (Nat × OrderStatus)) (userId : Nat) : Nat :=
  (orders.filter (fun o => o.1 == userId && ¬ o.2 == OrderStatus.cancelled)).length

/-- Source: `couponSchema.methods.canUserUseCoupon`: not valid for usage, first-order
restriction, then the per-user cap read from CouponUsage. -/
def canUserUseCoupon (c : Coupon) (now : Int) (orders : List (Nat × OrderStatus))
    (usages : List CouponUsageFact) (userId : Nat) : UsageCheck :=
  if ¬ isValidForUsage c now then
    { canUse := false, reason := some "Coupon is not valid" }
  else if c.isFirstOrderOnly && 0 < countNonCancelledOrders orders userId then
    { canUse := false, reason := some "This coupon is only valid for first order" }
  else if c.userUsageLimit ≤ countUserUsage usages c.id userId then
    { canUse := false, reason := some "You have already used this coupon maximum times" }
  else
    { canUse := true, reason := none }

/-- The errors thrown by `calculateDiscount`. -/
inductive CouponError where
  | couponNotValid
  | minimumOrderAmountRequired
deriving Repr, DecidableEq

/-- Source: `couponSchema.methods.calculateDiscount`: reject an invalid coupon or a
cart total below the minimum, clamp a percentage discount to `maxDiscount`
(when truthy), and clamp the result to the applicable amount. -/
def calculateDiscount (c : Coupon) (now : Int) (cartTotal : Rat) : Except CouponError Rat :=
  if ¬ isValidForUsage c now then .error .couponNotValid
  else if cartTotal < c.minOrderAmount then .error .minimumOrderAmountRequired
  else
    let applicableAmount := cartTotal
    let discount :=
      match c.discountType with
      | .percentage =>
        let d := applicableAmount * c.discountValue / 100
        if ratTruthy c.maxDiscount then min d (c.maxDiscount.getD 0) else d
      | .fixed => c.discountValue
    .ok (min discount applicableAmount)

/-- The coupon aggregate plus its usage facts, as persisted. -/
structure CouponStore where
  coupon : Coupon
  usages : List CouponUsageFact
deriving Repr, DecidableEq

/-- Source: `couponSchema.methods.useCoupon`: increment and save the aggregate
`usedCount`, then `CouponUsage.create({ coupon, user, usedAt })` — the create
omits `order` and `discountAmount`.  The first component is the persisted
state after the call; the counter save has already happened when the fact
write is attempted. -/
def useCoupon (st : CouponStore) (userId : Nat) (now : Int) :
    CouponStore × Except DbError Unit :=
  let st1 : CouponStore :=
    { st with coupon := { st.coupon with usedCount := st.coupon.usedCount + 1 } }
  match couponUsageCreate
      { coupon := some st.coupon.id, user := some userId, order := none
        discountAmount := none, usedAt := now } with
  | .error e => (st1, .error e)
  | .ok fact => ({ st1 with usages := st1.usages ++ [fact] }, .ok ())

/-- Source: `Coupon.findOne({ code, isActive: true, validFrom: { $lte: now },
validUntil: { $gte: now } })` as issued by `cartSchema.methods.applyCoupon`. -/
def findActiveCoupon (coupons : List Coupon) (code : String) (now : Int) : Option Coupon :=
  coupons.find? (fun c =>
    c.code == code && c.isActive && c.validFrom ≤ now && now ≤ c.validUntil)

/-- Source: `cartSchema.methods.applyCoupon`: look the active in-window coupon up,
check the stored subtotal against `minOrderAmount`, compute the discount
inline (percentage clamped to a truthy `maxDiscount`; fixed taken as-is),
store code and discount and save. -/
def applyCoupon (coupons : List Coupon) (cfg : DeliveryConfig) (now : Int)
    (c : Cart) (couponCode : String) : Except CartError Cart :=
  match findActiveCoupon coupons couponCode now with
  | none => .error .invalidOrExpiredCoupon
  | some coupon =>
    if c.subtotal < coupon.minOrderAmount then .error .minimumOrderAmountRequired
    else
      let discount :=
        match coupon.discountType with
        | .percentage =>
          let d := c.subtotal * coupon.discountValue / 100
          if ratTruthy coupon.maxDiscount then min d (coupon.maxDiscount.getD 0) else d
        | .fixed => coupon.discountValue
      .ok (preSave cfg now
        { c with couponCode := some couponCode, couponDiscount := discount })

/-- Source: `cartSchema.methods.removeCoupon`: clear code and discount and save. -/
def removeCoupon (cfg : DeliveryConfig) (now : Int) (c : Cart) : Except CartError Cart :=
  .ok (preSave cfg now { c with couponCode := none, couponDiscount := 0 })

/-! ### Sequences of cart mutations -/

/-- One cart mutation request. -/
inductive CartOp where
  | add (productId variantId quantity : Nat)
  | update (productId variantId quantity : Nat)
  | remove (productId variantId : Nat)
  | clear
  | applyCode (code : String)
  | removeCode
deriving Repr, DecidableEq

/-- The stores and configuration the cart methods read. -/
structure CartEnv where
  products : List Product
  coupons : List Coupon
  cfg : DeliveryConfig
  now : Int

/-- Dispatch one mutation to the corresponding cart method. -/
def applyOp (env : CartEnv) (c : Cart) : CartOp → Except CartError Cart
  | .add productId variantId quantity =>
    addItem env.products env.cfg env.now c productId variantId quantity
  | .update productId variantId quantity =>
    updateItemQuantity env.products env.cfg env.now c productId variantId quantity
  | .remove productId variantId => removeItem env.cfg env.now c productId variantId
  | .clear => clearCart env.cfg env.now c
  | .applyCode code => applyCoupon env.coupons env.cfg env.now c code
  | .removeCode => removeCoupon env.cfg env.now c

/-- Run a sequence of mutations, stopping at the first failure. -/
def runOps (env : CartEnv) (ops : List CartOp) (c : Cart) : Except CartError Cart :=
  match ops with
  | [] => .ok c
  | op :: rest =>
    match applyOp env c op with
    | .error e => .error e
    | .ok c2 => runOps env rest c2

/-- The stored derived totals agree with the pure recomputation from the
final item list and the stored coupon discount. -/
def totalsConsistent (cfg : DeliveryConfig) (c : Cart) : Prop :=
  c.totalItems = itemsTotalQty c.items ∧
  c.subtotal = itemsSubtotal c.items ∧
  c.totalDiscount = itemsDiscount c.items + c.couponDiscount ∧
  c.deliveryCharge = computeDeliveryCharge cfg c.subtotal ∧
  c.totalAmount = c.subtotal + c.deliveryCharge - c.couponDiscount

instance (cfg : DeliveryConfig) (c : Cart) : Decidable (totalsConsistent cfg c) := by
  unfold totalsConsistent
  infer_instance

/-! ### Checkout (spec-modelled) -/

/-- Variant stock counters, as an association list from variant id to units. -/
def lookupStock (stock : List (Nat × Nat)) (variantId : Nat) : Option Nat :=
  (stock.find? (fun e => e.1 == variantId)).map (fun e => e.2)

/-- Replace the counter of one variant. -/
def setStock (stock : List (Nat × Nat)) (variantId n : Nat) : List (Nat × Nat) :=
  stock.map (fun e => if e.1 == variantId then (e.1, n) else e)

/-- Decrement the counters for every cart line, or report failure without
committing any decrement when any line fails availability. -/
def decrementAll (stock : List (Nat × Nat)) : List CartItem → Option (List (Nat × Nat))
  | [] => some stock
  | item :: rest =>
    match lookupStock stock item.variant with
    | none => none
    | some s =>
      if item.quantity ≤ s then decrementAll (setStock stock item.variant (s - item.quantity)) rest
      else none

/-- An order as materialized from a cart at checkout: an immutable snapshot
of the cart lines and totals. -/
structure PlacedOrder where
  id : Nat
  user : Nat
  items : List CartItem
  couponCode : Option String
  totalAmount : Rat
deriving Repr, DecidableEq

/-- The shared state checkout acts on. -/
structure World where
  stock : List (Nat × Nat)
  cart : Cart
  coupons : List Coupon
  usages : List CouponUsageFact
  orders : List PlacedOrder
deriving Repr, DecidableEq

/-- Increment the aggregate `usedCount` of one coupon. -/
def incrementUsed (coupons : List Coupon) (couponId : Nat) : List Coupon :=
  coupons.map (fun c => if c.id == couponId then { c with usedCount := c.usedCount + 1 } else c)

/-- The failures that abort a checkout. -/
inductive CheckoutError where
  | emptyCart
  | insufficientStock
  | couponNotFound
deriving Repr, DecidableEq

/-- Modelled from the spec: the checkout controller that materializes a Cart
into an Order is not part of the provided sources (only the models it drives
are), so it is embedded from §4.4 — as one logical unit it snapshots the cart
items into immutable order items, decrements stock for every line (aborting
the whole order if any line fails availability), records coupon usage if a
coupon was applied (incrementing the aggregate counter and appending one
CouponUsage fact together), and clears the source cart; on any failure it
performs none of these.  The first component is the resulting shared state. -/
def checkout (cfg : DeliveryConfig) (w : World) (userId orderId : Nat) (now : Int) :
    World × Except CheckoutError Unit :=
  if w.cart.items.isEmpty then (w, .error .emptyCart)
  else
    match decrementAll w.stock w.cart.items with
    | none => (w, .error .insufficientStock)
    | some stock2 =>
      let couponStep : Option (List Coupon × List CouponUsageFact) :=
        match w.cart.couponCode with
        | none => some (w.coupons, w.usages)
        | some code =>
          match w.coupons.find? (fun c => c.code == code) with
          | none => none
          | some coupon =>
            some (incrementUsed w.coupons coupon.id,
              w.usages ++ [{ coupon := coupon.id, user := userId, order := some orderId
                             discountAmount := w.cart.couponDiscount, usedAt := now }])
      match couponStep with
      | none => (w, .error .couponNotFound)
      | some (coupons2, usages2) =>
        ({ stock := stock2
           cart := preSave cfg now
             { w.cart with items := [], couponCode := none, couponDiscount := 0 }
           coupons := coupons2
           usages := usages2
           orders := w.orders ++
             [{ id := orderId, user := userId, items := w.cart.items
                couponCode := w.cart.couponCode, totalAmount := w.cart.totalAmount }] },
         .ok ())

/-- All four checkout effects, phrased against the starting state `w`. -/
def checkoutEffects (cfg : DeliveryConfig) (w : World) (userId orderId : Nat)
    (now : Int) (w2 : World) : Prop :=
  decrementAll w.stock w.cart.items = some w2.stock ∧
  w2.cart = preSave cfg now { w.cart with items := [], couponCode := none, couponDiscount := 0 } ∧
  w2.orders = w.orders ++
    [{ id := orderId, user := userId, items := w.cart.items
       couponCode := w.cart.couponCode, totalAmount := w.cart.totalAmount }] ∧
  (w.cart.couponCode = none → w2.coupons = w.coupons ∧ w2.usages = w.usages) ∧
  (∀ code, w.cart.couponCode = some code →
    ∃ coupon, w.coupons.find? (fun c => c.code == code) = some coupon ∧
      w2.coupons = incrementUsed w.coupons coupon.id ∧
      w2.usages = w.usages ++
        [{ coupon := coupon.id, user := userId, order := some orderId
           discountAmount := w.cart.couponDiscount, usedAt := now }])

/-! ### Concrete fixtures used by witnesses and counterexamples -/

/-- A product whose single variant sells at 300 with ample stock. -/
def sampleProduct300 : Product :=
  { id := 1
    variants := [{ id := 11, price := { mrp := 300, sellingPrice := 300, discount := 0 }
                   stock := 100 }] }

/-- A product whose single variant sells at 10 with ample stock. -/
def sampleProduct10 : Product :=
  { id := 2
    variants := [{ id := 21, price := { mrp := 10, sellingPrice := 10, discount := 0 }
                   stock := 100 }] }

/-- The FLAT50 coupon: fixed 50 off, per-user limit 1, valid on instants 0..1000. -/
def couponFlat50 : Coupon :=
  { id := 5, code := "FLAT50", discountType := .fixed, discountValue := 50
    minOrderAmount := 0, maxDiscount := none, usageLimit := none, usedCount := 0
    userUsageLimit := 1, validFrom := 0, validUntil := 1000
    isActive := true, isFirstOrderOnly := false }

/-- Environment with the 300-rupee product and FLAT50. -/
def sampleEnv300 : CartEnv :=
  { products := [sampleProduct300], coupons := [couponFlat50], cfg := defaultConfig, now := 10 }

/-- Environment with the 10-rupee product and FLAT50. -/
def sampleEnv10 : CartEnv :=
  { products := [sampleProduct10], coupons := [couponFlat50], cfg := defaultConfig, now := 10 }

/-- A pending online-paid order with no partner assigned. -/
def samplePendingOrder : Order :=
  { user := 3, status := .pending, tracking := []
    orderSummary := { itemsCount := 1, subtotal := 100, discount := 0, couponDiscount := 0
                      deliveryCharge := 29, totalAmount := 129 }
    paymentDetails := { method := .online }
    deliveryPartner := none, actualDeliveryTime := none }

/-- A cash-on-delivery variant of the pending order. -/
def sampleCodOrder : Order :=
  { samplePendingOrder with paymentDetails := { method := .cod } }

/-- A usage history in which user 3 has already redeemed coupon 5 once. -/
def sampleUsedOnce : List CouponUsageFact :=
  [{ coupon := 5, user := 3, order := some 9, discountAmount := 50, usedAt := 5 }]

/-- The FLAT50 aggregate with an empty fact table. -/
def sampleStore : CouponStore :=
  { coupon := couponFlat50, usages := [] }

/-! ### Basic lemmas about the pre-save recomputation -/

/-- The result of the pre-save hook always satisfies the totals invariant. -/
theorem preSave_totalsConsistent (cfg : DeliveryConfig) (now : Int) (c : Cart) :
    totalsConsistent cfg (preSave cfg now c) :=
  ⟨rfl, rfl, rfl, rfl, rfl⟩

/-- Recomputing the totals twice yields the same cart as recomputing once. -/
theorem preSave_idem (cfg : DeliveryConfig) (now : Int) (c : Cart) :
    preSave cfg now (preSave cfg now c) = preSave cfg now c :=
  rfl

/-- Every successful `addItem` returns a pre-save image. -/
theorem addItem_ok_preSave {products : List Product} {cfg : DeliveryConfig} {now : Int}
    {c : Cart} {productId variantId quantity : Nat} {c2 : Cart}
    (h : addItem products cfg now c productId variantId quantity = .ok c2) :
    ∃ c1, c2 = preSave cfg now c1 := by
  unfold addItem at h
  split at h
  · exact Except.noConfusion h
  · split at h
    · exact Except.noConfusion h
    · split at h
      · exact Except.noConfusion h
      · split at h
        · dsimp only at h
          split at h
          · exact Except.noConfusion h
          · exact ⟨_, (Except.ok.inj h).symm⟩
        · exact ⟨_, (Except.ok.inj h).symm⟩

/-- Every successful `updateItemQuantity` returns a pre-save image. -/
theorem updateItemQuantity_ok_preSave {products : List Product} {cfg : DeliveryConfig}
    {now : Int} {c : Cart} {productId variantId quantity : Nat} {c2 : Cart}
    (h : updateItemQuantity products cfg now c productId variantId quantity = .ok c2) :
    ∃ c1, c2 = preSave cfg now c1 := by
  unfold updateItemQuantity at h
  split at h
  · exact Except.noConfusion h
  · split at h
    · exact Except.noConfusion h
    · split at h
      · exact Except.noConfusion h
      · split at h
        · exact ⟨_, (Except.ok.inj h).symm⟩
        · exact ⟨_, (Except.ok.inj h).symm⟩

/-- Every successful `applyCoupon` returns a pre-save image. -/
theorem applyCoupon_ok_preSave {coupons : List Coupon} {cfg : DeliveryConfig} {now : Int}
    {c : Cart} {code : String} {c2 : Cart}
    (h : applyCoupon coupons cfg now c code = .ok c2) :
    ∃ c1, c2 = preSave cfg now c1 := by
  unfold applyCoupon at h
  split at h
  · exact Except.noConfusion h
  · split at h
    · exact Except.noConfusion h
    · exact ⟨_, (Except.ok.inj h).symm⟩

/-- Every successful cart mutation returns a pre-save image. -/
theorem applyOp_ok_preSave {env : CartEnv} {c : Cart} {op : CartOp} {c2 : Cart}
    (h : applyOp env c op = .ok c2) : ∃ c1, c2 = preSave env.cfg env.now c1 := by
  cases op with
  | add productId variantId quantity => exact addItem_ok_preSave h
  | update productId variantId quantity => exact updateItemQuantity_ok_preSave h
  | remove productId variantId => exact ⟨_, (Except.ok.inj h).symm⟩
  | clear => exact ⟨_, (Except.ok.inj h).symm⟩
  | applyCode code => exact applyCoupon_ok_preSave h
  | removeCode => exact ⟨_, (Except.ok.inj h).symm⟩

/-- A successful run of mutations preserves the totals invariant. -/
theorem runOps_ok_consistent {env : CartEnv} {ops : List CartOp} {c c2 : Cart}
    (hc : totalsConsistent env.cfg c) (h : runOps env ops c = .ok c2) :
    totalsConsistent env.cfg c2 := by
  induction ops generalizing c with
  | nil =>
    unfold runOps at h
    exact (Except.ok.inj h) ▸ hc
  | cons op rest ih =>
    unfold runOps at h
    split at h
    · exact Except.noConfusion h
    · rename_i c1 heq
      obtain ⟨c0, rfl⟩ := applyOp_ok_preSave heq
      exact ih (preSave_totalsConsistent env.cfg env.now c0) h

/-- The initial cart satisfies the totals invariant. -/
theorem initialCart_totalsConsistent (cfg : DeliveryConfig)
    (h : ¬ cfg.freeDeliveryAbove ≤ 0) (h2 : ¬ cfg.minOrderAmount ≤ 0) :
    totalsConsistent cfg initialCart := by
  refine ⟨rfl, rfl, by norm_num [initialCart, itemsDiscount], ?_, by norm_num [initialCart]⟩
  simp [initialCart, computeDeliveryCharge, h, h2]

/-! ### C7 — refund amounts by payment method and status -/

/-- C7: `calculateRefundAmount` returns 0 for every cash-on-delivery order
regardless of status; the full `totalAmount` for non-COD orders in `pending`
or `confirmed`; `totalAmount − deliveryCharge` for non-COD orders in `packed`;
and 0 for non-COD orders in `out_for_delivery` or `delivered`. -/
theorem C7_calculateRefundAmount_cases (o : Order) :
    (o.paymentDetails.method = .cod → calculateRefundAmount o = 0) ∧
    (o.paymentDetails.method ≠ .cod →
      ((o.status = .pending ∨ o.status = .confirmed) →
        calculateRefundAmount o = o.orderSummary.totalAmount) ∧
      (o.status = .packed →
        calculateRefundAmount o = o.orderSummary.totalAmount - o.orderSummary.deliveryCharge) ∧
      ((o.status = .out_for_delivery ∨ o.status = .delivered) →
        calculateRefundAmount o = 0)) := by
  obtain ⟨u, st, tr, os, ⟨m⟩, dp, adt⟩ := o
  cases m <;> cases st <;> simp [calculateRefundAmount]

/-- C7 witness: a concrete cash-on-delivery order refunds 0. -/
theorem C7_witness : calculateRefundAmount sampleCodOrder = 0 :=
  (C7_calculateRefundAmount_cases sampleCodOrder).1 rfl

/-! ### C10 — refunds for already-terminal orders -/

/-- C10: `calculateRefundAmount` reads only the payment method, the current
status and the order summary amounts, and a non-COD order already `cancelled`
or `returned` refunds 0 — so the refund of a cancellation must be computed
from the pre-cancellation status. -/
theorem C10_refund_prestatus :
    (∀ o : Order, o.paymentDetails.method ≠ .cod →
      (o.status = .cancelled ∨ o.status = .returned) → calculateRefundAmount o = 0) ∧
    (∀ o1 o2 : Order, o1.paymentDetails.method = o2.paymentDetails.method →
      o1.status = o2.status →
      o1.orderSummary.totalAmount = o2.orderSummary.totalAmount →
      o1.orderSummary.deliveryCharge = o2.orderSummary.deliveryCharge →
      calculateRefundAmount o1 = calculateRefundAmount o2) := by
  constructor
  · intro o hm hst
    obtain ⟨u, st, tr, os, ⟨m⟩, dp, adt⟩ := o
    cases m <;> cases st <;> simp_all [calculateRefundAmount]
  · intro o1 o2 hm hs ht hd
    obtain ⟨u1, st1, tr1, os1, ⟨m1⟩, dp1, adt1⟩ := o1
    obtain ⟨u2, st2, tr2, os2, ⟨m2⟩, dp2, adt2⟩ := o2
    dsimp only at hm hs ht hd ⊢
    subst hm
    subst hs
    simp [calculateRefundAmount, ht, hd]

/-- A cancelled online-paid order. -/
def sampleCancelledOrder : Order :=
  { samplePendingOrder with status := .cancelled }

/-- C10 witness: the concrete cancelled online-paid order refunds 0. -/
theorem C10_witness : calculateRefundAmount sampleCancelledOrder = 0 :=
  (C10_refund_prestatus).1 sampleCancelledOrder (by decide) (Or.inl rfl)

/-! ### C8 — recording a redemption diverges from its fact table -/

/-- C8 (code bug): `useCoupon` increments and saves the aggregate `usedCount`,
but the subsequent `CouponUsage.create` omits the `required` field
`discountAmount` (and `order`), so the fact write is rejected by the schema:
the counter is left incremented with no fact appended, for every input. -/
theorem C8_useCoupon_records_nothing (st : CouponStore) (userId : Nat) (now : Int) :
    (useCoupon st userId now).1.coupon.usedCount = st.coupon.usedCount + 1 ∧
    (useCoupon st userId now).1.usages = st.usages ∧
    (useCoupon st userId now).2 = .error .validationFailed := by
  unfold useCoupon couponUsageCreate
  simp

/-! ### C5 — discount clamping -/

/-- C5 counterexample: `applyCoupon` stores a coupon discount of 50 on a cart
whose subtotal is 10, so the discount stored on the cart by `applyCoupon`
exceeds the subtotal it discounts. -/
theorem C5_counterexample :
    (runOps sampleEnv10 [.add 2 21 1, .applyCode "FLAT50"] initialCart).toOption.map
        (fun c => c.couponDiscount) = some 50 ∧
    (runOps sampleEnv10 [.add 2 21 1, .applyCode "FLAT50"] initialCart).toOption.map
        (fun c => c.subtotal) = some 10 ∧
    ¬ (50 : Rat) ≤ 10 := by
  norm_num [runOps, applyOp, addItem, applyCoupon, findProduct, Product.findVariant,
    Product.isAvailable, findIndexList, sameLine, preSave, itemsTotalQty, itemsSubtotal,
    itemsDiscount, computeDeliveryCharge, findActiveCoupon, ratTruthy, sampleEnv10,
    sampleProduct10, couponFlat50, defaultConfig, initialCart, Except.toOption]

/-- C5 amended: the evaluator's `calculateDiscount` never returns more than
the amount it discounts (percentage clamped to `maxDiscount` then to the
subtotal, fixed clamped to the subtotal); but the cart's `applyCoupon`
computes its discount inline and stores a fixed coupon's `discountValue`
without clamping it to the subtotal. -/
theorem C5_amended_clamp :
    (∀ (c : Coupon) (now : Int) (cartTotal d : Rat),
      calculateDiscount c now cartTotal = .ok d → d ≤ cartTotal) ∧
    (∀ (coupons : List Coupon) (cfg : DeliveryConfig) (now : Int) (c : Cart)
        (code : String) (coupon : Coupon),
      findActiveCoupon coupons code now = some coupon →
      coupon.discountType = .fixed →
      ¬ c.subtotal < coupon.minOrderAmount →
      applyCoupon coupons cfg now c code =
        .ok (preSave cfg now
          { c with couponCode := some code, couponDiscount := coupon.discountValue })) := by
  constructor
  · intro c now cartTotal d h
    unfold calculateDiscount at h
    split at h
    · exact Except.noConfusion h
    · split at h
      · exact Except.noConfusion h
      · exact (Except.ok.inj h) ▸ min_le_right _ _
  · intro coupons cfg now c code coupon hfind hfixed hmin
    unfold applyCoupon
    rw [hfind]
    simp only [hmin, if_false, hfixed]

/-- C5 witness: `calculateDiscount` of FLAT50 on a 300-rupee total is 50,
which indeed does not exceed 300. -/
theorem C5_witness : (50 : Rat) ≤ 300 :=
  (C5_amended_clamp).1 couponFlat50 10 300 50
    (by norm_num [calculateDiscount, isValidForUsage, couponFlat50])

/-! ### C6 — sign of totalAmount -/

/-- C6 counterexample: add a 300-rupee item, apply FLAT50, then remove the
item — the cart retains the coupon discount and its stored `totalAmount`
recomputes to −50, a reachable negative total. -/
theorem C6_counterexample :
    (runOps sampleEnv300 [.add 1 11 1, .applyCode "FLAT50", .remove 1 11]
        initialCart).toOption.map (fun c => c.totalAmount) = some (-50) ∧
    (-50 : Rat) < 0 := by
  norm_num [runOps, applyOp, addItem, removeItem, applyCoupon, findProduct,
    Product.findVariant, Product.isAvailable, findIndexList, sameLine, preSave,
    itemsTotalQty, itemsSubtotal, itemsDiscount, computeDeliveryCharge,
    findActiveCoupon, ratTruthy, sampleEnv300, sampleProduct300, couponFlat50,
    defaultConfig, initialCart, Except.toOption]

/-- C6 amended: `totalAmount = subtotal + deliveryCharge − couponDiscount`
with no clamp anywhere in the cart, so it is nonnegative exactly under the
proviso that the retained coupon discount does not exceed the recomputed
subtotal (the configured fee being nonnegative); carts mutated after a coupon
is applied can violate that proviso and go negative. -/
theorem C6_amended (cfg : DeliveryConfig) (now : Int) (c : Cart)
    (hfee : 0 ≤ cfg.deliveryCharge)
    (hcoupon : c.couponDiscount ≤ itemsSubtotal c.items) :
    0 ≤ (preSave cfg now c).totalAmount := by
  have hch : 0 ≤ computeDeliveryCharge cfg (itemsSubtotal c.items) := by
    unfold computeDeliveryCharge
    split
    · exact le_refl 0
    · split
      · exact hfee
      · exact le_refl 0
  show 0 ≤ itemsSubtotal c.items + computeDeliveryCharge cfg (itemsSubtotal c.items)
      - c.couponDiscount
  linarith

/-- C6 witness: the fresh cart under the default configuration has a
nonnegative total. -/
theorem C6_witness : 0 ≤ (preSave defaultConfig 0 initialCart).totalAmount :=
  C6_amended defaultConfig 0 initialCart (by norm_num [defaultConfig])
    (by norm_num [initialCart, itemsSubtotal])

/-! ### C3 — the status state machine -/

/-- C3 counterexample: requesting `out_for_delivery` from `pending` through
`assignDeliveryPartner` fails with `InvalidTransition` as the table demands,
but does not leave the order unchanged — the delivery partner has already
been recorded on the document when the transition check throws. -/
theorem C3_counterexample :
    (assignDeliveryPartner samplePendingOrder 7 50).2 =
      .error (.invalidTransition .pending .out_for_delivery) ∧
    (assignDeliveryPartner samplePendingOrder 7 50).1.deliveryPartner = some 7 ∧
    samplePendingOrder.deliveryPartner = none := by
  refine ⟨?_, ?_, rfl⟩ <;>
    simp [assignDeliveryPartner, updateStatus, samplePendingOrder, validTransitions,
      List.contains]

/-- C3 amended: the transition table is exactly as claimed; a same-state
request is a no-op success appending nothing; an allowed transition succeeds
and appends exactly one tracking entry carrying the new status, the
timestamp, the supplied-or-default message and the acting principal; any
other pair fails with `InvalidTransition` carrying both statuses and leaves
the order unchanged — except that a failing `assignDeliveryPartner` has
already recorded the partner on the document before the check, leaving the
status and tracking (but not the partner field) unchanged. -/
theorem C3_amended_transitions (o : Order) (tgt : OrderStatus) (note : String)
    (actor : Option Nat) (now : Int) :
    (validTransitions .pending = [.confirmed, .cancelled] ∧
     validTransitions .confirmed = [.packed, .cancelled] ∧
     validTransitions .packed = [.out_for_delivery, .cancelled] ∧
     validTransitions .out_for_delivery = [.delivered, .cancelled] ∧
     validTransitions .delivered = [.returned] ∧
     validTransitions .cancelled = [] ∧
     validTransitions .returned = []) ∧
    (o.status = tgt → updateStatus o tgt note actor now = (o, .ok o)) ∧
    (o.status ≠ tgt → tgt ∈ validTransitions o.status →
      ∃ o2, updateStatus o tgt note actor now = (o2, .ok o2) ∧
        o2.status = tgt ∧
        o2.tracking = o.tracking ++
          [{ status := tgt, timestamp := now
             note := if note == "" then getStatusMessage tgt else note
             updatedBy := actor }]) ∧
    (o.status ≠ tgt → tgt ∉ validTransitions o.status →
      updateStatus o tgt note actor now = (o, .error (.invalidTransition o.status tgt))) ∧
    (∀ partnerId : Nat, o.status ≠ .out_for_delivery →
      OrderStatus.out_for_delivery ∉ validTransitions o.status →
      assignDeliveryPartner o partnerId now =
        ({ o with deliveryPartner := some partnerId },
         .error (.invalidTransition o.status .out_for_delivery))) := by
  refine ⟨⟨rfl, rfl, rfl, rfl, rfl, rfl, rfl⟩, ?_, ?_, ?_, ?_⟩
  · intro h
    unfold updateStatus
    simp [h]
  · intro hne hmem
    unfold updateStatus
    rw [if_neg (by simp [hne]), if_pos (by simpa using hmem)]
    exact ⟨_, rfl, rfl, rfl⟩
  · intro hne hmem
    unfold updateStatus
    rw [if_neg (by simp [hne]), if_neg (by simpa using hmem)]
  · intro partnerId hne hmem
    unfold assignDeliveryPartner updateStatus
    rw [if_neg (by simp [hne]), if_neg (by simpa using hmem)]

/-- C3 witness: the concrete pending order transitions to `cancelled` with
exactly one appended tracking entry carrying the default message. -/
theorem C3_witness :
    ∃ o2, updateStatus samplePendingOrder .cancelled "" none 50 = (o2, .ok o2) ∧
      o2.status = .cancelled ∧
      o2.tracking = samplePendingOrder.tracking ++
        [{ status := .cancelled, timestamp := 50
           note := if "" == "" then getStatusMessage .cancelled else ""
           updatedBy := none }] :=
  (C3_amended_transitions samplePendingOrder .cancelled "" none 50).2.2.1
    (by decide) (by decide)

/-! ### C4 — coupon eligibility at application time -/

/-- C4 counterexample: FLAT50 has `userUsageLimit = 1` and user 3 has one
recorded usage, so `canUserUseCoupon` rejects a second redemption — yet
applying the code to a cart succeeds, because `cartSchema.methods.applyCoupon`
never consults the usage history. -/
theorem C4_counterexample :
    couponFlat50.userUsageLimit = 1 ∧
    countUserUsage sampleUsedOnce couponFlat50.id 3 = 1 ∧
    (canUserUseCoupon couponFlat50 10 [] sampleUsedOnce 3).canUse = false ∧
    (runOps sampleEnv10 [.add 2 21 1, .applyCode "FLAT50"] initialCart).toOption.map
        (fun c => c.couponCode) = some (some "FLAT50") := by
  refine ⟨rfl, by decide, by decide, ?_⟩
  norm_num [runOps, applyOp, addItem, applyCoupon, findProduct, Product.findVariant,
    Product.isAvailable, findIndexList, sameLine, preSave, itemsTotalQty, itemsSubtotal,
    itemsDiscount, computeDeliveryCharge, findActiveCoupon, ratTruthy, sampleEnv10,
    sampleProduct10, couponFlat50, defaultConfig, initialCart, Except.toOption]

/-- C4 amended: `applyCoupon` on a cart enforces only that the code resolves
to an active in-window coupon and that the stored subtotal meets
`minOrderAmount` — it succeeds whenever those hold; the global usage cap,
the first-order restriction and the per-user cap are enforced only by
`canUserUseCoupon`, which in particular rejects a coupon whose recorded
per-user usage has reached `userUsageLimit`. -/
theorem C4_amended_eligibility :
    (∀ (coupons : List Coupon) (cfg : DeliveryConfig) (now : Int) (c : Cart) (code : String),
      findActiveCoupon coupons code now = none →
      applyCoupon coupons cfg now c code = .error .invalidOrExpiredCoupon) ∧
    (∀ (coupons : List Coupon) (cfg : DeliveryConfig) (now : Int) (c : Cart)
        (code : String) (coupon : Coupon),
      findActiveCoupon coupons code now = some coupon →
      c.subtotal < coupon.minOrderAmount →
      applyCoupon coupons cfg now c code = .error .minimumOrderAmountRequired) ∧
    (∀ (coupons : List Coupon) (cfg : DeliveryConfig) (now : Int) (c : Cart)
        (code : String) (coupon : Coupon),
      findActiveCoupon coupons code now = some coupon →
      ¬ c.subtotal < coupon.minOrderAmount →
      ∃ c2, applyCoupon coupons cfg now c code = .ok c2) ∧
    (∀ (cpn : Coupon) (now : Int) (orders : List (Nat × OrderStatus))
        (usages : List CouponUsageFact) (userId : Nat),
      isValidForUsage cpn now = true →
      (cpn.isFirstOrderOnly = false ∨ countNonCancelledOrders orders userId = 0) →
      cpn.userUsageLimit ≤ countUserUsage usages cpn.id userId →
      canUserUseCoupon cpn now orders usages userId =
        { canUse := false
          reason := some "You have already used this coupon maximum times" }) := by
  refine ⟨?_, ?_, ?_, ?_⟩
  · intro coupons cfg now c code hfind
    unfold applyCoupon
    rw [hfind]
  · intro coupons cfg now c code coupon hfind hmin
    unfold applyCoupon
    rw [hfind]
    simp only [hmin, if_true]
  · intro coupons cfg now c code coupon hfind hmin
    unfold applyCoupon
    rw [hfind]
    simp only [hmin, if_false]
    exact ⟨_, rfl⟩
  · intro cpn now orders usages userId hvalid hfo husage
    unfold canUserUseCoupon
    rcases hfo with hfo | hfo <;>
      rw [if_neg (by simp [hvalid]), if_neg (by simp [hfo]), if_pos husage]

/-- C4 witness: `canUserUseCoupon` rejects user 3 reusing FLAT50. -/
theorem C4_witness :
    canUserUseCoupon couponFlat50 10 [] sampleUsedOnce 3 =
      { canUse := false
        reason := some "You have already used this coupon maximum times" } :=
  (C4_amended_eligibility).2.2.2 couponFlat50 10 [] sampleUsedOnce 3
    (by decide) (Or.inl rfl) (by decide)

/-! ### C2 — stored totals equal the pure recomputation -/

/-- C2: after any successful sequence of cart mutations starting from a cart
whose stored totals are consistent, the stored derived totals equal the pure
recomputation from the final item list and coupon discount; recomputing twice
yields the same cart as recomputing once; and the delivery charge follows the
three-tier rule. -/
theorem C2_totals_recompute (env : CartEnv) (ops : List CartOp) (c0 c2 : Cart)
    (h0 : totalsConsistent env.cfg c0) (h : runOps env ops c0 = .ok c2) :
    totalsConsistent env.cfg c2 ∧
    (∀ c : Cart,
      preSave env.cfg env.now (preSave env.cfg env.now c) = preSave env.cfg env.now c) ∧
    (∀ s : Rat,
      (env.cfg.freeDeliveryAbove ≤ s → computeDeliveryCharge env.cfg s = 0) ∧
      (env.cfg.minOrderAmount ≤ s ∧ s < env.cfg.freeDeliveryAbove →
        computeDeliveryCharge env.cfg s = env.cfg.deliveryCharge) ∧
      (s < env.cfg.minOrderAmount → computeDeliveryCharge env.cfg s = 0)) := by
  refine ⟨runOps_ok_consistent h0 h, fun c => preSave_idem env.cfg env.now c,
    fun s => ⟨?_, ?_, ?_⟩⟩
  · intro hs
    unfold computeDeliveryCharge
    rw [if_pos hs]
  · rintro ⟨h1, h2⟩
    unfold computeDeliveryCharge
    rw [if_neg (not_le.mpr h2), if_pos h1]
  · intro hs
    unfold computeDeliveryCharge
    by_cases hfree : env.cfg.freeDeliveryAbove ≤ s
    · rw [if_pos hfree]
    · rw [if_neg hfree, if_neg (not_le.mpr hs)]

/-- The cart produced by adding one 300-rupee item to the fresh cart. -/
def sampleCart300 : Cart :=
  { items := [{ product := 1, variant := 11, quantity := 1
                price := { mrp := 300, sellingPrice := 300, discount := 0 } }]
    couponCode := none
    couponDiscount := 0
    totalItems := 1
    subtotal := 300
    totalDiscount := 0
    deliveryCharge := 0
    totalAmount := 300
    lastUpdated := 10 }

/-- C2 witness: the cart reached by one concrete `addItem` has consistent
stored totals. -/
theorem C2_witness : totalsConsistent sampleEnv300.cfg sampleCart300 :=
  (C2_totals_recompute sampleEnv300 [.add 1 11 1] initialCart sampleCart300
    (initialCart_totalsConsistent defaultConfig (by norm_num [defaultConfig])
      (by norm_num [defaultConfig]))
    (by norm_num [runOps, applyOp, addItem, findProduct, Product.findVariant,
      Product.isAvailable, findIndexList, sameLine, preSave, itemsTotalQty,
      itemsSubtotal, itemsDiscount, computeDeliveryCharge, sampleEnv300,
      sampleProduct300, defaultConfig, initialCart, sampleCart300])).1

/-! ### C9 — addItem merge semantics -/

/-- Helper: `findIndexList` misses a list none of whose elements match. -/
theorem findIndexList_none {α : Type} {p : α → Bool} {l : List α}
    (h : ∀ x ∈ l, p x = false) : findIndexList p l = none := by
  induction l with
  | nil => rfl
  | cons a l ih =>
    have ha := h a (by simp)
    simp [findIndexList, ha, ih (fun x hx => h x (by simp [hx]))]

/-- Helper: `findIndexList` finds the first match, here sitting after a prefix of
non-matches. -/
theorem findIndexList_append_cons {α : Type} {p : α → Bool} (pre : List α) (x : α)
    (post : List α) (hpre : ∀ y ∈ pre, p y = false) (hx : p x = true) :
    findIndexList p (pre ++ x :: post) = some pre.length := by
  induction pre with
  | nil => simp [findIndexList, hx]
  | cons a pre ih =>
    have ha := hpre a (by simp)
    simp [findIndexList, ha, ih (fun y hy => hpre y (by simp [hy]))]

/-- Reading at the pivot position returns the pivot. -/
theorem getD_append_cons {α : Type} (pre : List α) (x : α) (post : List α) (d : α) :
    (pre ++ x :: post).getD pre.length d = x := by
  induction pre with
  | nil => rfl
  | cons a pre ih => simpa [List.getD] using ih

/-- Writing at the pivot position replaces the pivot. -/
theorem set_append_cons {α : Type} (pre : List α) (x y : α) (post : List α) :
    (pre ++ x :: post).set pre.length y = pre ++ y :: post := by
  induction pre with
  | nil => rfl
  | cons a pre ih => simp [List.set, ih]

/-- Helper: `isAvailable` through a resolved variant is the stock comparison. -/
theorem isAvailable_true_iff {p : Product} {variantId : Nat} {v : Variant}
    (h : p.findVariant variantId = some v) (n : Nat) :
    p.isAvailable variantId n = true ↔ n ≤ v.stock := by
  unfold Product.isAvailable
  rw [h]
  simp

/-- C9: on a cart already holding a line for the (product, variant) pair with
quantity `q0` (and no other line for the pair), `addItem` of `q` more units
succeeds exactly when the variant's stock is at least `q0 + q`, and on
success the cart holds the single merged line with quantity `q0 + q`; on a
cart with no line for the pair, `addItem` with sufficient stock appends one
new line with a fresh snapshot of the variant's current price. -/
theorem C9_addItem_merge (products : List Product) (cfg : DeliveryConfig) (now : Int)
    (c : Cart) (productId variantId q : Nat) (product : Product) (variant : Variant)
    (hp : findProduct products productId = some product)
    (hv : product.findVariant variantId = some variant) :
    (∀ (pre post : List CartItem) (item : CartItem),
      c.items = pre ++ item :: post →
      (∀ y ∈ pre, sameLine productId variantId y = false) →
      sameLine productId variantId item = true →
      (∀ y ∈ post, sameLine productId variantId y = false) →
      ((item.quantity + q ≤ variant.stock →
        addItem products cfg now c productId variantId q =
          .ok (preSave cfg now
            { c with items := pre ++ { item with quantity := item.quantity + q } :: post })) ∧
       (variant.stock < item.quantity + q →
        ∃ e, addItem products cfg now c productId variantId q = .error e))) ∧
    ((∀ y ∈ c.items, sameLine productId variantId y = false) →
      q ≤ variant.stock →
      addItem products cfg now c productId variantId q =
        .ok (preSave cfg now
          { c with items := c.items ++
              [{ product := productId, variant := variantId, quantity := q
                 price := { mrp := variant.price.mrp
                            sellingPrice := variant.price.sellingPrice
                            discount := variant.price.discount } }] })) := by
  constructor
  · intro pre post item hitems hpre hitem hpost
    have hidx : findIndexList (sameLine productId variantId) c.items = some pre.length := by
      rw [hitems]
      exact findIndexList_append_cons pre item post hpre hitem
    constructor
    · intro hstock
      have hq : q ≤ variant.stock := le_trans (Nat.le_add_left q item.quantity) hstock
      unfold addItem
      simp only [hp, hv, hidx]
      rw [if_neg (by simp [(isAvailable_true_iff hv q).mpr hq])]
      rw [hitems, getD_append_cons,
        if_neg (by simp [(isAvailable_true_iff hv (item.quantity + q)).mpr hstock]),
        set_append_cons]
    · intro hstock
      by_cases hq : q ≤ variant.stock
      · unfold addItem
        simp only [hp, hv, hidx]
        rw [if_neg (by simp [(isAvailable_true_iff hv q).mpr hq])]
        rw [hitems, getD_append_cons]
        rw [if_pos (by
          simp only [Bool.not_eq_true]
          rw [← Bool.not_eq_true, isAvailable_true_iff hv]
          exact not_le.mpr hstock)]
        exact ⟨_, rfl⟩
      · unfold addItem
        simp only [hp, hv]
        rw [if_pos (by
          simp only [Bool.not_eq_true]
          rw [← Bool.not_eq_true, isAvailable_true_iff hv]
          exact hq)]
        exact ⟨_, rfl⟩
  · intro hnone hq
    unfold addItem
    simp only [hp, hv, findIndexList_none hnone]
    rw [if_neg (by simp [(isAvailable_true_iff hv q).mpr hq])]

/-- C9 witness: adding two units of the 300-rupee variant to the fresh cart
appends one new line with the fresh price snapshot. -/
theorem C9_witness :
    addItem [sampleProduct300] defaultConfig 10 initialCart 1 11 2 =
      .ok (preSave defaultConfig 10
        { initialCart with items := initialCart.items ++
            [{ product := 1, variant := 11, quantity := 2
               price := { mrp := 300, sellingPrice := 300, discount := 0 } }] }) :=
  (C9_addItem_merge [sampleProduct300] defaultConfig 10 initialCart 1 11 2
      sampleProduct300
      { id := 11, price := { mrp := 300, sellingPrice := 300, discount := 0 }, stock := 100 }
      rfl rfl).2
    (by simp [initialCart]) (by decide)

/-! ### C1 — checkout atomicity -/

/-- C1: checkout is atomic — it either performs all of its effects
(stock decremented for every line with no partial decrement, the cart items
snapshotted into an immutable order appended to the order store, coupon usage
recorded exactly when a coupon was applied, and the source cart cleared), or,
when any line fails availability or any other step fails, performs none of
them and leaves the shared state exactly as before. -/
theorem C1_checkout_atomic (cfg : DeliveryConfig) (w : World) (userId orderId : Nat)
    (now : Int) :
    ((checkout cfg w userId orderId now).1 = w ∧
      (checkout cfg w userId orderId now).2 ≠ .ok ()) ∨
    (checkoutEffects cfg w userId orderId now (checkout cfg w userId orderId now).1 ∧
      (checkout cfg w userId orderId now).2 = .ok ()) := by
  unfold checkout
  split
  · exact Or.inl ⟨rfl, by simp⟩
  · split
    · exact Or.inl ⟨rfl, by simp⟩
    · rename_i stock2 hdec
      dsimp only
      split
      · exact Or.inl ⟨rfl, by simp⟩
      · rename_i coupons2 usages2 heq
        refine Or.inr ⟨⟨hdec, rfl, rfl, ?_, ?_⟩, rfl⟩
        · intro hnone
          rw [hnone] at heq
          have h1 := Option.some.inj heq
          exact ⟨(congrArg Prod.fst h1).symm, (congrArg Prod.snd h1).symm⟩
        · intro code hcode
          rw [hcode] at heq
          dsimp only at heq
          cases hfind : w.coupons.find? (fun c => c.code == code) with
          | none =>
            rw [hfind] at heq
            exact Option.noConfusion heq
          | some coupon =>
            rw [hfind] at heq
            have h1 := Option.some.inj heq
            exact ⟨coupon, rfl, (congrArg Prod.fst h1).symm, (congrArg Prod.snd h1).symm⟩

end RadheRadhe
